import Mathlib

/-!
Verification of the Geospatial Region Resolution & Coordinate Reconciliation
Engine of the climate_tracker repository.

Shallow embedding of:
- `src/utils/geospatial.py` (ray-casting point-in-polygon, `GeoJSONRegionMapper`),
- `src/config/region_mapping.py` (fixed tables),
- `src/utils/geocoding_helper.py` (`BC_CITIES_COORDS`, `geocode_location_with_region`).

Modelling conventions:
- Python floats are modelled as `ℚ`; the engine only ever compares, adds,
  subtracts, multiplies and divides coordinates, so the arithmetic is exact.
- A Python function that can raise is modelled as returning `PyResult α`,
  where `PyResult.exn` stands for a raised exception.
- Python dicts with string keys are modelled as association lists in
  insertion order (Python dict iteration order is insertion order).
- The network call to Nominatim and the filesystem read of the GeoJSON file
  are the only effects; they are modelled by passing their outcome in as an
  explicit parameter (`ExternalResult` for the HTTP call, an `Option` parse
  outcome for the file).
-/

namespace ClimateTracker

/-- Result of running a piece of Python code: either a returned value or a
raised exception. -/
inductive PyResult (α : Type) where
  | ok : α → PyResult α
  | exn : PyResult α
deriving DecidableEq

/-! ## Geometry predicate (src/utils/geospatial.py, lines 10-64) -/

/-- One iteration of the ray-casting loop of `point_in_polygon`
(geospatial.py lines 28-34), for the edge from `(p1x, p1y)` to `(p2x, p2y)`.
Note that inside the three guards `y > min ∧ y ≤ max ∧ x ≤ max` the source's
`p1y != p2y` test is always true (otherwise `y > p1y` and `y ≤ p1y` would both
hold), so `xinters` is always freshly computed on the reachable path and we
inline it. -/
def pipStep (x y p1x p1y p2x p2y : ℚ) (inside : Bool) : Bool :=
  if y > min p1y p2y then
    if y ≤ max p1y p2y then
      if x ≤ max p1x p2x then
        if p1x = p2x ∨ x ≤ (y - p1y) * (p2x - p1x) / (p2y - p1y) + p1x then !inside
        else inside
      else inside
    else inside
  else inside

/-- The ray-casting loop of `point_in_polygon` (geospatial.py lines 25-35):
state is the previous vertex `p1` and the `inside` flag; the list argument is
the remaining sequence of `p2` vertices. -/
def pipLoop (x y : ℚ) : (ℚ × ℚ) → Bool → List (ℚ × ℚ) → Bool
  | _, inside, [] => inside
  | p1, inside, p2 :: rest => pipLoop x y p2 (pipStep x y p1.1 p1.2 p2.1 p2.2 inside) rest

/-- `point_in_polygon(point, polygon)` (geospatial.py lines 10-37).
The point is `(x, y) = (lng, lat)`.  The loop visits `polygon[i % n]` for
`i = 1, ..., n`, i.e. the vertices `polygon[1], ..., polygon[n-1], polygon[0]`.
On an empty ring the source raises `IndexError` at `polygon[0]` (line 25),
modelled by `PyResult.exn`. -/
def point_in_polygon (point : ℚ × ℚ) (polygon : List (ℚ × ℚ)) : PyResult Bool :=
  match polygon with
  | [] => .exn
  | p0 :: rest => .ok (pipLoop point.1 point.2 p0 false (rest ++ [p0]))

/-- Value computed by `point_in_polygon` on a non-empty ring (helper for
stating totality; `point_in_polygon p r = .ok (pipB p r)` whenever `r ≠ []`). -/
def pipB (point : ℚ × ℚ) : List (ℚ × ℚ) → Bool
  | [] => false
  | p0 :: rest => pipLoop point.1 point.2 p0 false (rest ++ [p0])

/-- The hole loop shared by `point_in_multipolygon` (geospatial.py lines 57-61)
and the Polygon branch of `get_region_for_point` (lines 148-152): scan the hole
rings, stopping at the first hole that contains the point. -/
def anyHole (point : ℚ × ℚ) : List (List (ℚ × ℚ)) → PyResult Bool
  | [] => .ok false
  | h :: hs =>
    match point_in_polygon point h with
    | .exn => .exn
    | .ok true => .ok true
    | .ok false => anyHole point hs

/-- `point_in_multipolygon(point, multipolygon)` (geospatial.py lines 40-64).
Empty polygon groups are skipped (`if polygon_group and len(polygon_group) > 0`);
the first ring of a group is the exterior, the rest are holes; the function
returns `True` for the first group whose exterior contains the point and none
of whose holes does. -/
def point_in_multipolygon (point : ℚ × ℚ) : List (List (List (ℚ × ℚ))) → PyResult Bool
  | [] => .ok false
  | group :: rest =>
    match group with
    | [] => point_in_multipolygon point rest
    | exterior :: holes =>
      match point_in_polygon point exterior with
      | .exn => .exn
      | .ok false => point_in_multipolygon point rest
      | .ok true =>
        match anyHole point holes with
        | .exn => .exn
        | .ok true => point_in_multipolygon point rest
        | .ok false => .ok true

/-! ## Region boundary index (src/utils/geospatial.py, lines 67-167) -/

/-- Geometry of one GeoJSON feature as examined by `get_region_for_point`
(geospatial.py lines 135-158): a `Polygon` (list of rings, first is the
exterior), a `MultiPolygon`, or anything else (unknown `type`, or a missing
`coordinates` entry), which the lookup skips. -/
inductive Geom where
  | poly : List (List (ℚ × ℚ)) → Geom
  | multi : List (List (List (ℚ × ℚ))) → Geom
  | other : Geom
deriving DecidableEq

/-- Body of the per-feature test of `get_region_for_point` (geospatial.py
lines 135-158), producing the feature's `is_inside` flag.  An empty
`coordinates` list is skipped by `if not coordinates: continue` (line 139). -/
def featureTest (point : ℚ × ℚ) : Geom → PyResult Bool
  | .poly rings =>
    match rings with
    | [] => .ok false
    | exterior :: holes =>
      match point_in_polygon point exterior with
      | .exn => .exn
      | .ok false => .ok false
      | .ok true =>
        match anyHole point holes with
        | .exn => .exn
        | .ok b => .ok !b
  | .multi polys =>
    match polys with
    | [] => .ok false
    | g :: gs => point_in_multipolygon point (g :: gs)
  | .other => .ok false

/-- Inner loop of `get_region_for_point` over one region's feature list
(geospatial.py lines 134-161): return at the first feature containing the
point. -/
def featsAny (point : ℚ × ℚ) : List Geom → PyResult Bool
  | [] => .ok false
  | g :: gs =>
    match featureTest point g with
    | .exn => .exn
    | .ok true => .ok true
    | .ok false => featsAny point gs

/-- Outer loop of `get_region_for_point` over `features_by_region`
(geospatial.py lines 133-163): return the first region one of whose features
contains the point, `none` if no region matches. -/
def regionGo (point : ℚ × ℚ) : List (String × List Geom) → PyResult (Option String)
  | [] => .ok none
  | (name, feats) :: rest =>
    match featsAny point feats with
    | .exn => .exn
    | .ok true => .ok (some name)
    | .ok false => regionGo point rest

/-- `GeoJSONRegionMapper` (geospatial.py lines 67-167): after construction the
only state read by lookups is `features_by_region`, a dict from high-level
region name to the list of feature geometries assigned to it, modelled as an
association list in insertion order. -/
structure GeoJSONRegionMapper where
  features_by_region : List (String × List Geom)
deriving DecidableEq

/-- `GeoJSONRegionMapper.has_geojson_data` (geospatial.py lines 165-167):
`len(self.features_by_region) > 0`. -/
def has_geojson_data (m : GeoJSONRegionMapper) : Bool :=
  decide (0 < m.features_by_region.length)

/-- `GeoJSONRegionMapper.get_region_for_point(lat, lng)` (geospatial.py lines
120-163).  Note the coordinate flip on line 131: `point = (lng, lat)`. -/
def get_region_for_point (m : GeoJSONRegionMapper) (lat lng : ℚ) : PyResult (Option String) :=
  regionGo (lng, lat) m.features_by_region

/-! ### The same geometry walk for the Python point `(None, lat)`

`geocode_location_with_region` can reach `get_region_for_point(geocoded_lat,
None)` when the external geocoder half-assigned (lat parsed, lon parse
raised).  Then `x = None` and `y = lat`: the two `y` guards of
`point_in_polygon` (geospatial.py lines 28-29) compare floats and run
normally, but as soon as an edge passes them, line 30 evaluates
`None <= max(p1x, p2x)`, which raises `TypeError`.  The `inside` flag can
therefore never toggle, so each walk either raises or reports "not inside".
The `...X` definitions below mirror their counterparts above for this
point. -/

/-- `point_in_polygon((None, lat), polygon)`: the ray-casting loop of
geospatial.py lines 25-35 with `x = None`.  The state is the previous vertex
and the (never-toggled) `inside` flag. -/
def pipLoopX (y : ℚ) : (ℚ × ℚ) → Bool → List (ℚ × ℚ) → PyResult Bool
  | _, inside, [] => .ok inside
  | p1, inside, p2 :: rest =>
    if y > min p1.2 p2.2 then
      if y ≤ max p1.2 p2.2 then .exn
      else pipLoopX y p2 inside rest
    else pipLoopX y p2 inside rest

/-- `point_in_polygon((None, lat), polygon)`: `IndexError` on the empty ring
as before, `TypeError` at the first edge whose `y` range admits `lat`. -/
def point_in_polygonX (y : ℚ) (polygon : List (ℚ × ℚ)) : PyResult Bool :=
  match polygon with
  | [] => .exn
  | p0 :: rest => pipLoopX y p0 false (rest ++ [p0])

/-- The hole loop (geospatial.py lines 57-61 and 148-152) for the point
`(None, lat)`. -/
def anyHoleX (y : ℚ) : List (List (ℚ × ℚ)) → PyResult Bool
  | [] => .ok false
  | h :: hs =>
    match point_in_polygonX y h with
    | .exn => .exn
    | .ok true => .ok true
    | .ok false => anyHoleX y hs

/-- `point_in_multipolygon((None, lat), multipolygon)` (geospatial.py lines
40-64). -/
def point_in_multipolygonX (y : ℚ) : List (List (List (ℚ × ℚ))) → PyResult Bool
  | [] => .ok false
  | group :: rest =>
    match group with
    | [] => point_in_multipolygonX y rest
    | exterior :: holes =>
      match point_in_polygonX y exterior with
      | .exn => .exn
      | .ok false => point_in_multipolygonX y rest
      | .ok true =>
        match anyHoleX y holes with
        | .exn => .exn
        | .ok true => point_in_multipolygonX y rest
        | .ok false => .ok true

/-- Per-feature test of `get_region_for_point` (geospatial.py lines 135-158)
for the point `(None, lat)`. -/
def featureTestX (y : ℚ) : Geom → PyResult Bool
  | .poly rings =>
    match rings with
    | [] => .ok false
    | exterior :: holes =>
      match point_in_polygonX y exterior with
      | .exn => .exn
      | .ok false => .ok false
      | .ok true =>
        match anyHoleX y holes with
        | .exn => .exn
        | .ok b => .ok !b
  | .multi polys =>
    match polys with
    | [] => .ok false
    | g :: gs => point_in_multipolygonX y (g :: gs)
  | .other => .ok false

/-- Inner feature loop of `get_region_for_point` for the point
`(None, lat)`. -/
def featsAnyX (y : ℚ) : List Geom → PyResult Bool
  | [] => .ok false
  | g :: gs =>
    match featureTestX y g with
    | .exn => .exn
    | .ok true => .ok true
    | .ok false => featsAnyX y gs

/-- Outer region loop of `get_region_for_point` for the point
`(None, lat)`. -/
def regionGoX (y : ℚ) : List (String × List Geom) → PyResult (Option String)
  | [] => .ok none
  | (name, feats) :: rest =>
    match featsAnyX y feats with
    | .exn => .exn
    | .ok true => .ok (some name)
    | .ok false => regionGoX y rest

/-- `GeoJSONRegionMapper.get_region_for_point(lat, None)` (geospatial.py
lines 120-163 with `lng = None`, so `point = (None, lat)`). -/
def get_region_for_pointX (m : GeoJSONRegionMapper) (lat : ℚ) : PyResult (Option String) :=
  regionGoX lat m.features_by_region

/-- One feature of the parsed GeoJSON file as consumed by `_load_geojson`
(geospatial.py lines 100-109): the `ADMIN_AREA_NAME` property (defaulting to
the empty string when absent) and the geometry. -/
structure RawFeature where
  admin_area_name : String
  geometry : Geom
deriving DecidableEq

/-- Appending a feature geometry to its region's list inside `_load_geojson`
(geospatial.py lines 106-109): dict insertion order means a region first
appears at the position of its first feature. -/
def addFeature (acc : List (String × List Geom)) (r : String) (g : Geom) :
    List (String × List Geom) :=
  if acc.any (fun p => p.1 = r) then
    acc.map (fun p => if p.1 = r then (p.1, p.2 ++ [g]) else p)
  else acc ++ [(r, [g])]

/-- `GeoJSONRegionMapper._load_geojson` (geospatial.py lines 85-118).
The try/except around the file read and JSON parse is modelled by the
`parsed` parameter: `none` stands for any I/O or parse failure
(`FileNotFoundError` or any other exception), on which the source sets
`features_by_region = {}` (lines 113-118); `some features` stands for a
successful parse.  Features whose district name is not in `region_mapping`
are skipped silently (lines 105-109). -/
def load_geojson (parsed : Option (List RawFeature))
    (region_mapping : List (String × String)) : List (String × List Geom) :=
  match parsed with
  | none => []
  | some features =>
    features.foldl
      (fun acc f =>
        match region_mapping.find? (fun p => p.1 == f.admin_area_name) with
        | some p => addFeature acc p.2 f.geometry
        | none => acc)
      []

/-! ## Fixed tables (src/config/region_mapping.py) -/

/-- `REGIONAL_DISTRICT_TO_REGION` (region_mapping.py lines 6-44). -/
def REGIONAL_DISTRICT_TO_REGION : List (String × String) := [
  ("Regional District of Bulkley-Nechako", "Northern BC"),
  ("Cariboo Regional District", "Northern BC"),
  ("Regional District of Fraser-Fort George", "Northern BC"),
  ("Regional District of Kitimat-Stikine", "Northern BC"),
  ("Peace River Regional District", "Northern BC"),
  ("North Coast Regional District", "Northern BC"),
  ("Stikine Region (Unincorporated)", "Northern BC"),
  ("Regional District of Central Okanagan", "Thompson-Okanagan"),
  ("Regional District of Okanagan-Similkameen", "Thompson-Okanagan"),
  ("Regional District of North Okanagan", "Thompson-Okanagan"),
  ("Thompson-Nicola Regional District", "Thompson-Okanagan"),
  ("Metro Vancouver Regional District", "Lower Mainland"),
  ("Fraser Valley Regional District", "Lower Mainland"),
  ("Squamish-Lillooet Regional District", "Lower Mainland"),
  ("Capital Regional District", "Vancouver Island & Coast"),
  ("Comox Valley Regional District", "Vancouver Island & Coast"),
  ("Cowichan Valley Regional District", "Vancouver Island & Coast"),
  ("Regional District of Nanaimo", "Vancouver Island & Coast"),
  ("Regional District of Alberni-Clayoquot", "Vancouver Island & Coast"),
  ("Regional District of Mount Waddington", "Vancouver Island & Coast"),
  ("Strathcona Regional District", "Vancouver Island & Coast"),
  ("Central Coast Regional District", "Vancouver Island & Coast"),
  ("qathet Regional District", "Vancouver Island & Coast"),
  ("Sunshine Coast Regional District", "Vancouver Island & Coast"),
  ("Regional District of Central Kootenay", "Kootenay/Columbia"),
  ("Regional District of East Kootenay", "Kootenay/Columbia"),
  ("Regional District of Kootenay Boundary", "Kootenay/Columbia"),
  ("Columbia Shuswap Regional District", "Kootenay/Columbia")]

/-- `REGION_CENTERS` (region_mapping.py lines 56-62), entries `(name, lat, lng)`. -/
def REGION_CENTERS : List (String × ℚ × ℚ) := [
  ("Northern BC", 57.0, -125.0),
  ("Thompson-Okanagan", 50.5, -119.0),
  ("Lower Mainland", 49.2, -123.0),
  ("Vancouver Island & Coast", 49.6, -125.0),
  ("Kootenay/Columbia", 49.5, -116.0)]

/-- `REGION_ID` (region_mapping.py lines 75-81), entries `(name, id)`. -/
def REGION_ID : List (String × String) := [
  ("Northern BC", "100"),
  ("Thompson-Okanagan", "101"),
  ("Lower Mainland", "102"),
  ("Vancouver Island & Coast", "103"),
  ("Kootenay/Columbia", "104")]

/-! ## Gazetteer and place resolution (src/utils/geocoding_helper.py) -/

/-- `BC_CITIES_COORDS` (geocoding_helper.py lines 15-40), entries
`(name, lat, lng)` in source order. -/
def BC_CITIES_COORDS : List (String × ℚ × ℚ) := [
  ("vancouver", 49.2827, -123.1207),
  ("kamloops", 50.6745, -120.3273),
  ("kelowna", 49.888, -119.496),
  ("victoria", 48.4284, -123.3656),
  ("abbotsford", 49.0504, -122.3045),
  ("prince george", 53.9166, -122.7494),
  ("surrey", 49.1044, -122.8011),
  ("burnaby", 49.2488, -122.9805),
  ("richmond", 49.1666, -123.1364),
  ("langley", 49.1031, -122.6582),
  ("coquitlam", 49.2837, -122.7932),
  ("north vancouver", 49.3200, -123.0723),
  ("west vancouver", 49.3667, -123.1667),
  ("nanaimo", 49.1664, -123.9401),
  ("vernon", 50.2670, -119.2722),
  ("penticton", 49.5001, -119.5858),
  ("cranbrook", 49.5167, -115.7667),
  ("nelson", 49.4996, -117.2856),
  ("castlegar", 49.3244, -117.6620),
  ("trail", 49.0956, -117.7056),
  ("terrace", 54.5163, -128.5995),
  ("smithers", 54.7817, -127.1718),
  ("fort st john", 56.2465, -120.8476),
  ("prince rupert", 54.3139, -130.3273)]

/-- Python `str.lower()` (ASCII-relevant part; every string the engine
compares is ASCII). -/
def pyLower (s : String) : String := ⟨s.data.map Char.toLower⟩

/-- Python `str.strip()`: remove leading and trailing whitespace. -/
def pyStrip (s : String) : String :=
  ⟨((s.data.dropWhile Char.isWhitespace).reverse.dropWhile Char.isWhitespace).reverse⟩

/-- Python `str.isdigit()` (ASCII-relevant part): non-empty and every
character a digit. -/
def pyIsDigit (s : String) : Bool := !s.data.isEmpty && s.data.all Char.isDigit

/-- Python substring membership `needle in hay`: `needle` occurs as a
contiguous substring of `hay`. -/
def strIn (needle hay : String) : Bool :=
  hay.data.tails.any (fun t => needle.data.isPrefixOf t)

/-- The local-database loop of `geocode_location_with_region`
(geocoding_helper.py lines 82-86): first entry of `BC_CITIES_COORDS` such that
`city in location_lower or location_lower in city`. -/
def gazetteerLookup (location_lower : String) : Option (ℚ × ℚ) :=
  (BC_CITIES_COORDS.find? (fun e => strIn e.1 location_lower || strIn location_lower e.1)).map
    Prod.snd

/-- Outcome of the Nominatim HTTP call of `geocode_location_with_region`
(geocoding_helper.py lines 90-111): either some exception was raised before
the line-108 assignment (timeout, connection error, `response.json()`
failure), or a response arrived with a status code and a parsed JSON result
list.  Each result entry carries the outcomes of the two *sequential*
fallible parses `float(result["lat"])` (line 108) and `float(result["lon"])`
(line 109): `none` means that parse raises (missing key or unparseable
value). -/
inductive ExternalResult where
  | exn : ExternalResult
  | response : Nat → List (Option ℚ × Option ℚ) → ExternalResult
deriving DecidableEq

/-- The `(geocoded_lat, geocoded_lng)` assignments performed by the `try`
block (geocoding_helper.py lines 90-111).  On a 200 response with a non-empty
result list, line 108 runs first: if the lat parse raises, the exception is
caught on line 110 with neither variable assigned; if it succeeds and the lon
parse on line 109 then raises, the exception is caught with `geocoded_lat`
already set and `geocoded_lng` still `None` — a half-assigned state.  Every
other outcome (exception, non-200 status, empty list) assigns nothing. -/
def externalGeocode : ExternalResult → Option ℚ × Option ℚ
  | .exn => (none, none)
  | .response status data =>
    if status = 200 then
      match data with
      | [] => (none, none)
      | (latP, lonP) :: _ =>
        match latP with
        | none => (none, none)
        | some lat =>
          match lonP with
          | none => (some lat, none)
          | some lon => (some lat, some lon)
    else (none, none)

/-- The resolution tiers of `geocode_location_with_region` (geocoding_helper.py
lines 77-116): gazetteer on the lower-cased, stripped input, then the external
service, then the line-114 default fill, which tests `geocoded_lat is None`
only — so the latitude is always assigned afterwards (hence `ℚ`), while the
longitude can remain `None` when the external call half-assigned
(`Option ℚ`).  Returns `(geocoded_lat, geocoded_lng)`. -/
def resolveCoords (ext : ExternalResult) (location : String) : ℚ × Option ℚ :=
  match gazetteerLookup (pyStrip (pyLower location)) with
  | some c => (c.1, some c.2)
  | none =>
    match externalGeocode ext with
    | (some lat, lng) => (lat, lng)
    | (none, _) => (53.7267, some (-127.6476))

/-- The declared-region normalization of `geocode_location_with_region`
(geocoding_helper.py lines 124-134): a numeric id occurring among
`REGION_ID.values()` is mapped to the first name carrying that id
(`next((k for k, v in REGION_ID.items() if v == region), region)`); any other
string is passed through unchanged. -/
def normalize_region (r : String) : String :=
  if pyIsDigit r = true ∧ r ∈ REGION_ID.map Prod.snd then
    ((REGION_ID.find? (fun p => p.2 == r)).map Prod.fst).getD r
  else r

/-- `REGION_CENTERS[region_name]` (geocoding_helper.py lines 149, 155); the
source only evaluates it under the guard `region_name in REGION_CENTERS`, so
the `(0, 0)` default is unreachable there. -/
def centerOf (name : String) : ℚ × ℚ :=
  ((REGION_CENTERS.find? (fun p => p.1 == name)).map Prod.snd).getD (0, 0)

/-- The validate-and-adjust block of `geocode_location_with_region`
(geocoding_helper.py lines 118-160), applied to the already-resolved
coordinate `geocoded`.  `mapper` is the value of `get_region_mapper()`
(`none` when initialization failed).  An exception raised by
`get_region_for_point` propagates (`PyResult.exn`). -/
def reconcile (mapper : Option GeoJSONRegionMapper) (geocoded : ℚ × ℚ) :
    Option String → PyResult (ℚ × ℚ × Bool)
  | none => .ok (geocoded.1, geocoded.2, false)
  | some r =>
    if r = "" then .ok (geocoded.1, geocoded.2, false)
    else
      if normalize_region r ≠ "" ∧ normalize_region r ∈ REGION_CENTERS.map Prod.fst then
        match mapper with
        | some m =>
          if has_geojson_data m = true then
            match get_region_for_point m geocoded.1 geocoded.2 with
            | .exn => .exn
            | .ok detected =>
              if detected = some (normalize_region r) then .ok (geocoded.1, geocoded.2, false)
              else
                .ok ((centerOf (normalize_region r)).1, (centerOf (normalize_region r)).2, true)
          else .ok ((centerOf (normalize_region r)).1, (centerOf (normalize_region r)).2, true)
        | none => .ok ((centerOf (normalize_region r)).1, (centerOf (normalize_region r)).2, true)
      else .ok (geocoded.1, geocoded.2, false)

/-- The validate-and-adjust block (geocoding_helper.py lines 118-160) in the
half-assigned state `geocoded = (lat, None)` — reachable only when the
external geocoder parsed the latitude and then raised on the longitude.  The
control flow is identical to `reconcile`, except that the membership check on
line 141 runs `get_region_for_point(lat, None)`, which can raise `TypeError`
(see `get_region_for_pointX`), and the pass-through returns carry the `None`
longitude. -/
def reconcileNoLng (mapper : Option GeoJSONRegionMapper) (lat : ℚ) :
    Option String → PyResult (ℚ × Option ℚ × Bool)
  | none => .ok (lat, none, false)
  | some r =>
    if r = "" then .ok (lat, none, false)
    else
      if normalize_region r ≠ "" ∧ normalize_region r ∈ REGION_CENTERS.map Prod.fst then
        match mapper with
        | some m =>
          if has_geojson_data m = true then
            match get_region_for_pointX m lat with
            | .exn => .exn
            | .ok detected =>
              if detected = some (normalize_region r) then .ok (lat, none, false)
              else
                .ok ((centerOf (normalize_region r)).1,
                  some (centerOf (normalize_region r)).2, true)
          else
            .ok ((centerOf (normalize_region r)).1,
              some (centerOf (normalize_region r)).2, true)
        | none =>
          .ok ((centerOf (normalize_region r)).1,
            some (centerOf (normalize_region r)).2, true)
      else .ok (lat, none, false)

/-- `geocode_location_with_region(location, region)` (geocoding_helper.py
lines 63-160): tiered resolution (lines 77-116) followed by the
reconciliation block (lines 118-160).  `ext` is the outcome of the Nominatim
call, `mapper` the value of `get_region_mapper()`.  When resolution assigned
both coordinates, the block is `reconcile` (and its real-number results are
reported with the longitude present); when the longitude stayed `None`, the
block is `reconcileNoLng`. -/
def geocode_location_with_region (ext : ExternalResult) (mapper : Option GeoJSONRegionMapper)
    (location : String) (region : Option String) : PyResult (ℚ × Option ℚ × Bool) :=
  match resolveCoords ext location with
  | (lat, some lng) =>
    match reconcile mapper (lat, lng) region with
    | .exn => .exn
    | .ok (flat, flng, w) => .ok (flat, some flng, w)
  | (lat, none) => reconcileNoLng mapper lat region

/-! ## Derived definitions used by the theorems -/

/-- Well-formedness actually needed by the geometry code to avoid the
`IndexError` of `polygon[0]`: every ring of the geometry is non-empty.  (The
spec's data-model invariant — at least 3 distinct points per ring — is
strictly stronger.) -/
def geomWf : Geom → Bool
  | .poly rings => rings.all fun r => !r.isEmpty
  | .multi polys => polys.all fun g => g.all fun r => !r.isEmpty
  | .other => true

/-- Value computed by `point_in_multipolygon` on a multipolygon all of whose
rings are non-empty. -/
def mpB (point : ℚ × ℚ) (mp : List (List (List (ℚ × ℚ)))) : Bool :=
  mp.any fun g =>
    match g with
    | [] => false
    | e :: hs => pipB point e && !(hs.any (pipB point))

/-- Spec-side characterization of MultiPolygon membership (spec §3): the point
belongs to at least one constituent polygon's exterior ring and to none of
that polygon's hole rings. -/
def multiPolygonContainsSpec (point : ℚ × ℚ) (mp : List (List (List (ℚ × ℚ)))) : Prop :=
  ∃ exterior holes, (exterior :: holes) ∈ mp ∧
    point_in_polygon point exterior = .ok true ∧
    ∀ h ∈ holes, point_in_polygon point h = .ok false

/-- Concrete mapper used by witnesses: one Lower Mainland feature whose
exterior ring is the square lng ∈ [-124, -122], lat ∈ [48, 50]
(rings are in GeoJSON `[lng, lat]` order). -/
def mapperLM : GeoJSONRegionMapper :=
  ⟨[("Lower Mainland", [Geom.poly [[(-124, 48), (-122, 48), (-122, 50), (-124, 50)]]])]⟩

/-- Concrete multipolygon used by witnesses: one polygon, exterior square of
side 4 around the origin with a hole square of side 2 around the origin. -/
def mpHole : List (List (List (ℚ × ℚ))) :=
  [[[(-2, -2), (2, -2), (2, 2), (-2, 2)], [(-1, -1), (1, -1), (1, 1), (-1, 1)]]]

/-! ## Helper lemmas -/

theorem point_in_polygon_eq_ok (point : ℚ × ℚ) (r : List (ℚ × ℚ)) (h : r ≠ []) :
    point_in_polygon point r = .ok (pipB point r) := by
  cases r with
  | nil => exact absurd rfl h
  | cons p0 rest => rfl

theorem anyHole_eq_ok (point : ℚ × ℚ) : ∀ (hs : List (List (ℚ × ℚ))),
    (∀ x ∈ hs, x ≠ []) → anyHole point hs = .ok (hs.any (pipB point))
  | [], _ => rfl
  | h :: hs, hwf => by
    have hh := point_in_polygon_eq_ok point h (hwf h (List.mem_cons_self h hs))
    have ih := anyHole_eq_ok point hs (fun x hx => hwf x (List.mem_cons_of_mem h hx))
    simp only [anyHole]
    rw [hh]
    cases hb : pipB point h with
    | true => simp [List.any_cons, hb]
    | false => simp [List.any_cons, hb, ih]

theorem point_in_multipolygon_eq_ok (point : ℚ × ℚ) :
    ∀ (mp : List (List (List (ℚ × ℚ)))), (∀ g ∈ mp, ∀ r ∈ g, r ≠ []) →
      point_in_multipolygon point mp = .ok (mpB point mp)
  | [], _ => rfl
  | group :: rest, hwf => by
    have hrest : ∀ g ∈ rest, ∀ r ∈ g, r ≠ [] :=
      fun g hg => hwf g (List.mem_cons_of_mem group hg)
    have ih := point_in_multipolygon_eq_ok point rest hrest
    cases group with
    | nil =>
      simp only [point_in_multipolygon, mpB, List.any_cons]
      simpa [mpB] using ih
    | cons e hs =>
      have he : e ≠ [] := hwf _ (List.mem_cons_self _ _) _ (List.mem_cons_self _ _)
      have hhs : ∀ x ∈ hs, x ≠ [] :=
        fun x hx => hwf _ (List.mem_cons_self _ _) _ (List.mem_cons_of_mem _ hx)
      simp only [point_in_multipolygon]
      rw [point_in_polygon_eq_ok point e he]
      cases hb : pipB point e with
      | false => simp [hb, ih, mpB, List.any_cons]
      | true =>
        rw [anyHole_eq_ok point hs hhs]
        cases hany : hs.any (pipB point) with
        | true => simp [hb, hany, ih, mpB, List.any_cons]
        | false => simp [hb, hany, mpB, List.any_cons]

theorem featureTest_ok (point : ℚ × ℚ) (g : Geom) (hwf : geomWf g = true) :
    ∃ b, featureTest point g = .ok b := by
  cases g with
  | other => exact ⟨false, rfl⟩
  | poly rings =>
    cases rings with
    | nil => exact ⟨false, rfl⟩
    | cons exterior holes =>
      simp only [geomWf, List.all_cons, Bool.and_eq_true, List.all_eq_true,
        Bool.not_eq_true', List.isEmpty_eq_false] at hwf
      obtain ⟨hext, hholes⟩ := hwf
      simp only [featureTest]
      rw [point_in_polygon_eq_ok point exterior hext]
      cases hb : pipB point exterior with
      | false => exact ⟨false, rfl⟩
      | true =>
        rw [anyHole_eq_ok point holes hholes]
        exact ⟨!holes.any (pipB point), rfl⟩
  | multi polys =>
    cases polys with
    | nil => exact ⟨false, rfl⟩
    | cons g gs =>
      simp only [geomWf, List.all_eq_true, Bool.not_eq_true', List.isEmpty_eq_false] at hwf
      simp only [featureTest]
      exact ⟨mpB point (g :: gs), point_in_multipolygon_eq_ok point (g :: gs) hwf⟩

theorem featsAny_ok (point : ℚ × ℚ) : ∀ (gs : List Geom),
    (∀ g ∈ gs, geomWf g = true) → ∃ b, featsAny point gs = .ok b
  | [], _ => ⟨false, rfl⟩
  | g :: gs, hwf => by
    obtain ⟨b, hb⟩ := featureTest_ok point g (hwf g (List.mem_cons_self g gs))
    obtain ⟨brest, hrest⟩ := featsAny_ok point gs (fun x hx => hwf x (List.mem_cons_of_mem g hx))
    simp only [featsAny]
    rw [hb]
    cases b with
    | true => exact ⟨true, rfl⟩
    | false => exact ⟨brest, hrest⟩

theorem regionGo_ok (point : ℚ × ℚ) : ∀ (fr : List (String × List Geom)),
    (∀ p ∈ fr, ∀ g ∈ p.2, geomWf g = true) → ∃ result, regionGo point fr = .ok result
  | [], _ => ⟨none, rfl⟩
  | (name, feats) :: rest, hwf => by
    obtain ⟨b, hb⟩ := featsAny_ok point feats (hwf _ (List.mem_cons_self _ _))
    obtain ⟨rrest, hrest⟩ := regionGo_ok point rest (fun p hp => hwf p (List.mem_cons_of_mem _ hp))
    simp only [regionGo]
    rw [hb]
    cases b with
    | true => exact ⟨some name, rfl⟩
    | false => exact ⟨rrest, hrest⟩

theorem regionName_mem_ne_empty (name : String) (h : name ∈ REGION_CENTERS.map Prod.fst) :
    ¬name = "" := by
  intro he
  subst he
  revert h
  decide

theorem normalize_region_empty : normalize_region "" = "" := rfl

theorem normalize_region_of_not_id (r : String) (h : r ∉ REGION_ID.map Prod.snd) :
    normalize_region r = r := by
  unfold normalize_region
  rw [if_neg]
  intro hc
  exact h hc.2

/-- The source's lines 139-158: mapper present with data. -/
theorem reconcile_verified (g : ℚ × ℚ) (m : GeoJSONRegionMapper) (r name : String)
    (detected : Option String)
    (hname : normalize_region r = name)
    (hfive : name ∈ REGION_CENTERS.map Prod.fst)
    (hdata : has_geojson_data m = true)
    (hdet : get_region_for_point m g.1 g.2 = .ok detected) :
    reconcile (some m) g (some r) =
      if detected = some name then .ok (g.1, g.2, false)
      else .ok ((centerOf name).1, (centerOf name).2, true) := by
  have hne : ¬name = "" := regionName_mem_ne_empty name hfive
  have hr : ¬r = "" := by
    intro he
    subst he
    rw [normalize_region_empty] at hname
    exact hne hname.symm
  simp only [reconcile]
  rw [if_neg hr, hname, if_pos ⟨hne, hfive⟩, if_pos hdata, hdet]

/-- The source's lines 153-158: no mapper, or mapper without data. -/
theorem reconcile_unverifiable (g : ℚ × ℚ) (mapper : Option GeoJSONRegionMapper)
    (r name : String)
    (hname : normalize_region r = name)
    (hfive : name ∈ REGION_CENTERS.map Prod.fst)
    (hnodata : ∀ m, mapper = some m → has_geojson_data m = false) :
    reconcile mapper g (some r) = .ok ((centerOf name).1, (centerOf name).2, true) := by
  have hne : ¬name = "" := regionName_mem_ne_empty name hfive
  have hr : ¬r = "" := by
    intro he
    subst he
    rw [normalize_region_empty] at hname
    exact hne hname.symm
  simp only [reconcile]
  rw [if_neg hr, hname, if_pos ⟨hne, hfive⟩]
  cases mapper with
  | none => rfl
  | some m => simp [hnodata m rfl]

/-- The source's lines 119-136: falsy or unknown declared region. -/
theorem reconcile_skip (g : ℚ × ℚ) (mapper : Option GeoJSONRegionMapper)
    (region : Option String)
    (h : region = none ∨ region = some "" ∨
      ∃ r, region = some r ∧ r ∉ REGION_ID.map Prod.snd ∧ r ∉ REGION_CENTERS.map Prod.fst) :
    reconcile mapper g region = .ok (g.1, g.2, false) := by
  rcases h with rfl | rfl | ⟨r, rfl, hid, hname⟩
  · rfl
  · simp [reconcile]
  · by_cases hr : r = ""
    · subst hr
      simp [reconcile]
    · simp only [reconcile]
      rw [if_neg hr, normalize_region_of_not_id r hid, if_neg]
      intro hc
      exact hname hc.2

/-- Counterpart of `reconcile_unverifiable` for the half-assigned state:
with no index data the geometry is never consulted, so the declared region's
center is returned even when the longitude is `None`. -/
theorem reconcileNoLng_unverifiable (lat : ℚ) (mapper : Option GeoJSONRegionMapper)
    (r name : String)
    (hname : normalize_region r = name)
    (hfive : name ∈ REGION_CENTERS.map Prod.fst)
    (hnodata : ∀ m, mapper = some m → has_geojson_data m = false) :
    reconcileNoLng mapper lat (some r) =
      .ok ((centerOf name).1, some (centerOf name).2, true) := by
  have hne : ¬name = "" := regionName_mem_ne_empty name hfive
  have hr : ¬r = "" := by
    intro he
    subst he
    rw [normalize_region_empty] at hname
    exact hne hname.symm
  simp only [reconcileNoLng]
  rw [if_neg hr, hname, if_pos ⟨hne, hfive⟩]
  cases mapper with
  | none => rfl
  | some m => simp [hnodata m rfl]

/-- Counterpart of `reconcile_skip` for the half-assigned state. -/
theorem reconcileNoLng_skip (lat : ℚ) (mapper : Option GeoJSONRegionMapper)
    (region : Option String)
    (h : region = none ∨ region = some "" ∨
      ∃ r, region = some r ∧ r ∉ REGION_ID.map Prod.snd ∧ r ∉ REGION_CENTERS.map Prod.fst) :
    reconcileNoLng mapper lat region = .ok (lat, none, false) := by
  rcases h with rfl | rfl | ⟨r, rfl, hid, hname⟩
  · rfl
  · simp [reconcileNoLng]
  · by_cases hr : r = ""
    · subst hr
      simp [reconcileNoLng]
    · simp only [reconcileNoLng]
      rw [if_neg hr, normalize_region_of_not_id r hid, if_neg]
      intro hc
      exact hname hc.2

theorem strIn_eq_true_iff (needle hay : String) :
    strIn needle hay = true ↔ needle.data <:+: hay.data := by
  unfold strIn
  rw [List.any_eq_true]
  constructor
  · rintro ⟨t, ht, hp⟩
    exact List.infix_iff_prefix_suffix.mpr
      ⟨t, List.isPrefixOf_iff_prefix.mp hp, (List.mem_tails _ _).mp ht⟩
  · intro h
    rcases List.infix_iff_prefix_suffix.mp h with ⟨t, hp, hs⟩
    exact ⟨t, (List.mem_tails _ _).mpr hs, List.isPrefixOf_iff_prefix.mpr hp⟩

theorem toLower_whitespace (c : Char) (h : c.isWhitespace = true) : c.toLower = c := by
  simp [Char.isWhitespace] at h
  rcases h with ((h | h) | h) | h <;> subst h <;> decide

theorem pyStrip_pyLower_blank (s : String) (hws : ∀ c ∈ s.data, c.isWhitespace = true) :
    pyStrip (pyLower s) = "" := by
  have h1 : ∀ c ∈ s.data.map Char.toLower, c.isWhitespace = true := by
    intro c hc
    rcases List.mem_map.mp hc with ⟨a, ha, rfl⟩
    rw [toLower_whitespace a (hws a ha)]
    exact hws a ha
  have h2 : (s.data.map Char.toLower).dropWhile Char.isWhitespace = [] :=
    List.dropWhile_eq_nil_iff.mpr h1
  simp only [pyStrip, pyLower, h2]
  rfl

/-! ## Claims -/

/-- Claim C1: for every resolved coordinate and every declared region that
normalizes to one of the five fixed region names, when the region boundary
index has data, `geocode_location_with_region` returns the resolved
coordinates unchanged with `was_adjusted = false` if `get_region_for_point`
on the resolved coordinate equals the normalized declared region, and
otherwise (mismatch, or no region found) returns that declared region's
canonical center point from the fixed `REGION_CENTERS` table with
`was_adjusted = true`. -/
theorem C1_reconcile_with_index_data (ext : ExternalResult) (location : String)
    (m : GeoJSONRegionMapper) (r name : String) (detected : Option String) (glat glng : ℚ)
    (hres : resolveCoords ext location = (glat, some glng))
    (hname : normalize_region r = name)
    (hfive : name ∈ REGION_CENTERS.map Prod.fst)
    (hdata : has_geojson_data m = true)
    (hdet : get_region_for_point m glat glng = .ok detected) :
    geocode_location_with_region ext (some m) location (some r) =
      if detected = some name then .ok (glat, some glng, false)
      else .ok ((centerOf name).1, some (centerOf name).2, true) := by
  unfold geocode_location_with_region
  rw [hres]
  dsimp only
  rw [reconcile_verified (glat, glng) m r name detected hname hfive hdata hdet]
  by_cases hd : detected = some name
  · rw [if_pos hd, if_pos hd]
  · rw [if_neg hd, if_neg hd]

theorem C1_witness :
    geocode_location_with_region .exn (some mapperLM) "Vancouver" (some "Lower Mainland") =
      .ok (49.2827, some (-123.1207), false) := by
  have hdet : get_region_for_point mapperLM 49.2827 (-123.1207) = .ok (some "Lower Mainland") := by
    norm_num [get_region_for_point, mapperLM, regionGo, featsAny, featureTest,
      point_in_polygon, pipLoop, pipStep, anyHole]
  have h := C1_reconcile_with_index_data .exn "Vancouver" mapperLM "Lower Mainland"
    "Lower Mainland" (some "Lower Mainland") 49.2827 (-123.1207) rfl rfl (by decide) rfl hdet
  rw [if_pos rfl] at h
  exact h

/-- Claim C2: for every resolved coordinate and every declared region that
normalizes to one of the five fixed region names, if the region boundary
index has no data (`has_geojson_data()` is false, or the mapper is
unavailable), reconciliation defaults to adjustment: it returns that declared
region's fixed canonical center point with `was_adjusted = true`, for all
resolved coordinates. -/
theorem C2_adjust_without_index_data (ext : ExternalResult) (location : String)
    (mapper : Option GeoJSONRegionMapper) (r name : String)
    (hname : normalize_region r = name)
    (hfive : name ∈ REGION_CENTERS.map Prod.fst)
    (hnodata : ∀ m, mapper = some m → has_geojson_data m = false) :
    geocode_location_with_region ext mapper location (some r) =
      .ok ((centerOf name).1, some (centerOf name).2, true) := by
  unfold geocode_location_with_region
  rcases hres : resolveCoords ext location with ⟨lat, lng⟩
  cases lng with
  | none => exact reconcileNoLng_unverifiable lat mapper r name hname hfive hnodata
  | some lng =>
    dsimp only
    rw [reconcile_unverifiable (lat, lng) mapper r name hname hfive hnodata]

theorem C2_witness :
    geocode_location_with_region .exn (some ⟨[]⟩) "somewhere" (some "Thompson-Okanagan") =
      .ok (50.5, some (-119.0), true) := by
  have h := C2_adjust_without_index_data .exn "somewhere" (some (⟨[]⟩ : GeoJSONRegionMapper))
    "Thompson-Okanagan" "Thompson-Okanagan" rfl (by decide)
    (fun m hm => by injection hm with h2; rw [← h2]; rfl)
  exact h

/-- Claim C3 counterexample: the claim "any exception still yields the fixed
default" is false.  With no gazetteer match and a 200 response whose first
entry parses `lat = 50` but raises on the `lon` parse (line 109), the
exception is caught with `geocoded_lat` already set, the line-114 default is
skipped, and resolution returns `(50, None)` — not the fixed default
coordinate, and not a coordinate at all. -/
theorem C3_counterexample :
    gazetteerLookup (pyStrip (pyLower "zzz")) = none ∧
    resolveCoords (.response 200 [(some 50, none)]) "zzz" = (50, none) ∧
    resolveCoords (.response 200 [(some 50, none)]) "zzz" ≠ (53.7267, some (-127.6476)) :=
  ⟨rfl, rfl, by
    intro h
    have h2 : ((50 : ℚ), (none : Option ℚ)) = ((53.7267 : ℚ), some (-127.6476 : ℚ)) :=
      Eq.trans (by rfl) h
    simpa using congrArg (fun p => p.2) h2⟩

/-- Claim C3 (amended): resolution itself raises no exception (the embedding
is a total function), and when the gazetteer misses it degrades as follows.
If the external call left `geocoded_lat` unassigned — it raised before the
latitude was parsed (timeout, mid-response exception, or a failing latitude
parse), returned a non-success status, or returned an empty result set — the
fixed default (lat 53.7267, lng -127.6476) is returned.  If instead a 200
response's first entry parses a latitude and then raises while parsing the
longitude, the already-assigned latitude suppresses the line-114 default and
resolution returns that latitude with no longitude. -/
theorem C3_resolution_default_or_half_assigned (location : String) (ext : ExternalResult)
    (hmiss : gazetteerLookup (pyStrip (pyLower location)) = none) :
    ((ext = .exn ∨ ∃ status data, ext = .response status data ∧
        (status ≠ 200 ∨ data = [] ∨ ∃ lonP rest, data = (none, lonP) :: rest)) →
      resolveCoords ext location = (53.7267, some (-127.6476))) ∧
    (∀ (lat : ℚ) (rest : List (Option ℚ × Option ℚ)),
      ext = .response 200 ((some lat, none) :: rest) →
      resolveCoords ext location = (lat, none)) := by
  constructor
  · intro hfail
    have hext : externalGeocode ext = (none, none) := by
      rcases hfail with rfl | ⟨s, d, rfl, hs | rfl | ⟨lonP, rest, rfl⟩⟩
      · rfl
      · simp [externalGeocode, hs]
      · simp [externalGeocode]
      · simp [externalGeocode]
    unfold resolveCoords
    rw [hmiss, hext]
  · rintro lat rest rfl
    have hext : externalGeocode (.response 200 ((some lat, none) :: rest)) =
        (some lat, none) := by
      simp [externalGeocode]
    unfold resolveCoords
    rw [hmiss, hext]

theorem C3_witness :
    gazetteerLookup (pyStrip (pyLower "zzz")) = none ∧
    resolveCoords .exn "zzz" = (53.7267, some (-127.6476)) :=
  ⟨rfl, (C3_resolution_default_or_half_assigned "zzz" .exn rfl).1 (Or.inl rfl)⟩

/-- Claim C4: if the boundary dataset file is missing or unparseable
(the caught-failure outcome, modelled by the `none` parse result), index
construction produces an index with zero regions instead of propagating any
exception; on that empty index `has_geojson_data` returns false and
`get_region_for_point` returns `None` for every (lat, lng) input, never
raising. -/
theorem C4_load_failure_degrades (region_mapping : List (String × String)) (lat lng : ℚ) :
    load_geojson none region_mapping = [] ∧
    has_geojson_data ⟨load_geojson none region_mapping⟩ = false ∧
    get_region_for_point ⟨load_geojson none region_mapping⟩ lat lng = .ok none :=
  ⟨rfl, rfl, rfl⟩

/-- Claim C5: `point_in_multipolygon point mp` returns true iff there is a
constituent polygon of `mp` whose exterior ring contains the point (per
`point_in_polygon`) and none of whose hole rings contains the point; in
particular, for a polygon whose exterior ring contains the point but one of
whose holes also contains it, the multipolygon made of that polygon alone
tests false. -/
theorem C5_multipolygon_membership (point : ℚ × ℚ) (mp : List (List (List (ℚ × ℚ))))
    (hwf : ∀ g ∈ mp, ∀ r ∈ g, r ≠ []) :
    (point_in_multipolygon point mp = .ok true ↔ multiPolygonContainsSpec point mp) ∧
    (∀ exterior holes, exterior ≠ [] → (∀ h ∈ holes, h ≠ []) →
      point_in_polygon point exterior = .ok true →
      (∃ h ∈ holes, point_in_polygon point h = .ok true) →
      point_in_multipolygon point [exterior :: holes] = .ok false) := by
  constructor
  · rw [point_in_multipolygon_eq_ok point mp hwf]
    constructor
    · intro h
      have hb : mpB point mp = true := (PyResult.ok.injEq _ _).mp h
      rcases List.any_eq_true.mp hb with ⟨g, hg, hgt⟩
      cases g with
      | nil => simp at hgt
      | cons e hs =>
        rw [show (match e :: hs with
              | [] => false
              | e :: hs => pipB point e && !(hs.any (pipB point))) =
            (pipB point e && !(hs.any (pipB point))) from rfl,
          Bool.and_eq_true, Bool.not_eq_true'] at hgt
        obtain ⟨he, hhs⟩ := hgt
        refine ⟨e, hs, hg, ?_, ?_⟩
        · rw [point_in_polygon_eq_ok point e (hwf _ hg _ (List.mem_cons_self _ _)), he]
        · intro h0 hh0
          have h0f : pipB point h0 = false := by
            rcases Bool.eq_false_or_eq_true (pipB point h0) with ht | hf
            · exact absurd ht ((List.any_eq_false.mp hhs) h0 hh0)
            · exact hf
          rw [point_in_polygon_eq_ok point h0 (hwf _ hg _ (List.mem_cons_of_mem _ hh0)), h0f]
    · rintro ⟨e, hs, hg, he, hhs⟩
      have hene : e ≠ [] := hwf _ hg _ (List.mem_cons_self _ _)
      rw [point_in_polygon_eq_ok point e hene] at he
      have he' : pipB point e = true := (PyResult.ok.injEq _ _).mp he
      refine congrArg PyResult.ok ?_
      unfold mpB
      rw [List.any_eq_true]
      refine ⟨e :: hs, hg, ?_⟩
      show (pipB point e && !(hs.any (pipB point))) = true
      rw [Bool.and_eq_true, Bool.not_eq_true']
      refine ⟨he', List.any_eq_false.mpr ?_⟩
      intro x hx
      have hx0 := hhs x hx
      rw [point_in_polygon_eq_ok point x (hwf _ hg _ (List.mem_cons_of_mem _ hx))] at hx0
      have hx1 : pipB point x = false := (PyResult.ok.injEq _ _).mp hx0
      simp [hx1]
  · rintro ext holes hext hholes hpt ⟨h0, hh0, hh0t⟩
    have hwf1 : ∀ g ∈ [ext :: holes], ∀ r ∈ g, r ≠ [] := by
      intro g hg r hr
      rw [List.mem_singleton] at hg
      subst hg
      rcases List.mem_cons.mp hr with rfl | hr'
      · exact hext
      · exact hholes r hr'
    rw [point_in_multipolygon_eq_ok point _ hwf1]
    have h0t : pipB point h0 = true := by
      rw [point_in_polygon_eq_ok point h0 (hholes _ hh0)] at hh0t
      exact (PyResult.ok.injEq _ _).mp hh0t
    have het : pipB point ext = true := by
      rw [point_in_polygon_eq_ok point ext hext] at hpt
      exact (PyResult.ok.injEq _ _).mp hpt
    have hany : holes.any (pipB point) = true := List.any_eq_true.mpr ⟨h0, hh0, h0t⟩
    refine congrArg PyResult.ok ?_
    simp [mpB, List.any_cons, het, hany]

theorem C5_witness :
    (point_in_multipolygon (0, 0) mpHole = .ok true ↔
      multiPolygonContainsSpec (0, 0) mpHole) :=
  (C5_multipolygon_membership (0, 0) mpHole (by decide)).1

/-- Claim C6: for every input, if the declared region is absent or the empty
string, or is a string that is neither one of the five numeric region ids nor
one of the five region names (normalization fails), reconciliation returns
the resolved coordinates unchanged with `was_adjusted = false` and raises no
error. -/
theorem C6_unknown_region_no_adjust (ext : ExternalResult) (location : String)
    (mapper : Option GeoJSONRegionMapper) (region : Option String)
    (h : region = none ∨ region = some "" ∨
      ∃ r, region = some r ∧ r ∉ REGION_ID.map Prod.snd ∧ r ∉ REGION_CENTERS.map Prod.fst) :
    geocode_location_with_region ext mapper location region =
      .ok ((resolveCoords ext location).1, (resolveCoords ext location).2, false) := by
  unfold geocode_location_with_region
  rcases hres : resolveCoords ext location with ⟨lat, lng⟩
  cases lng with
  | none => exact reconcileNoLng_skip lat mapper region h
  | some lng =>
    dsimp only
    rw [reconcile_skip (lat, lng) mapper region h]

theorem C6_witness :
    geocode_location_with_region .exn (some mapperLM) "Vancouver" (some "Narnia") =
      .ok (49.2827, some (-123.1207), false) :=
  C6_unknown_region_no_adjust .exn "Vancouver" (some mapperLM) (some "Narnia")
    (Or.inr (Or.inr ⟨"Narnia", rfl, by decide, by decide⟩))

/-- Claim C7: for every declared region given as one of the five numeric
region-id strings ("100"-"104", i.e. a value of the fixed `REGION_ID`
table), reconciliation maps the id to its region name through `REGION_ID`,
and when the index lacks data it still returns that region's canonical center
from `REGION_CENTERS` with `was_adjusted = true` (e.g. id "100" yields
Northern BC's center (57.0, -125.0), checked by the witness). -/
theorem C7_numeric_id_resolves_center (ext : ExternalResult) (location : String)
    (mapper : Option GeoJSONRegionMapper) (name idStr : String)
    (hid : (name, idStr) ∈ REGION_ID)
    (hnodata : ∀ m, mapper = some m → has_geojson_data m = false) :
    geocode_location_with_region ext mapper location (some idStr) =
      .ok ((centerOf name).1, some (centerOf name).2, true) := by
  obtain ⟨hname, hfive⟩ :
      normalize_region idStr = name ∧ name ∈ REGION_CENTERS.map Prod.fst := by
    simp only [REGION_ID, List.mem_cons, List.not_mem_nil, or_false, Prod.mk.injEq] at hid
    rcases hid with ⟨rfl, rfl⟩ | ⟨rfl, rfl⟩ | ⟨rfl, rfl⟩ | ⟨rfl, rfl⟩ | ⟨rfl, rfl⟩ <;>
      exact ⟨rfl, by decide⟩
  unfold geocode_location_with_region
  rcases hres : resolveCoords ext location with ⟨lat, lng⟩
  cases lng with
  | none => exact reconcileNoLng_unverifiable lat mapper idStr name hname hfive hnodata
  | some lng =>
    dsimp only
    rw [reconcile_unverifiable (lat, lng) mapper idStr name hname hfive hnodata]

theorem C7_witness :
    (("Northern BC", "100") ∈ REGION_ID) ∧
    geocode_location_with_region .exn none "prince george" (some "100") =
      .ok (57.0, some (-125.0), true) :=
  ⟨by decide, C7_numeric_id_resolves_center .exn "prince george" none "Northern BC" "100"
    (by decide) (fun m hm => nomatch hm)⟩

/-- Claim C8: gazetteer lookup lower-cases and whitespace-trims the input and
matches an entry when the gazetteer key is a substring of the input or the
input is a substring of the key (bidirectional substring match, stated here
with the mathematical infix relation on character lists); the first matching
entry in the fixed enumeration order of `BC_CITIES_COORDS` wins, and its
stored (lat, lng) is returned — regardless of the external service outcome. -/
theorem C8_gazetteer_first_match (location : String) (pre post : List (String × ℚ × ℚ))
    (city : String) (c : ℚ × ℚ)
    (hsplit : BC_CITIES_COORDS = pre ++ (city, c) :: post)
    (hmatch : city.data <:+: (pyStrip (pyLower location)).data ∨
      (pyStrip (pyLower location)).data <:+: city.data)
    (hpre : ∀ e ∈ pre, ¬(e.1.data <:+: (pyStrip (pyLower location)).data ∨
      (pyStrip (pyLower location)).data <:+: e.1.data)) :
    ∀ ext, resolveCoords ext location = (c.1, some c.2) := by
  intro ext
  have hlook : gazetteerLookup (pyStrip (pyLower location)) = some c := by
    unfold gazetteerLookup
    rw [hsplit, List.find?_append]
    have h1 : pre.find? (fun e => strIn e.1 (pyStrip (pyLower location)) ||
        strIn (pyStrip (pyLower location)) e.1) = none := by
      rw [List.find?_eq_none]
      intro e he hc
      rw [Bool.or_eq_true, strIn_eq_true_iff, strIn_eq_true_iff] at hc
      exact hpre e he hc
    have h2 : ((city, c) :: post).find? (fun e => strIn e.1 (pyStrip (pyLower location)) ||
        strIn (pyStrip (pyLower location)) e.1) = some (city, c) := by
      refine List.find?_cons_of_pos _ ?_
      rw [Bool.or_eq_true, strIn_eq_true_iff, strIn_eq_true_iff]
      exact hmatch
    rw [h1, h2]
    rfl
  unfold resolveCoords
  rw [hlook]

theorem C8_witness :
    resolveCoords .exn " Kamloops " = (50.6745, some (-120.3273)) :=
  C8_gazetteer_first_match " Kamloops " [("vancouver", 49.2827, -123.1207)]
    (BC_CITIES_COORDS.drop 2) "kamloops" (50.6745, -120.3273) rfl
    (by decide) (by decide) .exn

/-- Claim C9 counterexample: `point_in_polygon` on the empty ring does not
return a boolean — the source raises `IndexError` at `polygon[0]`, so the
claim that malformed geometry never causes a raised exception is false. -/
theorem C9_counterexample : point_in_polygon (0, 0) [] = .exn := rfl

/-- Claim C9 (amended): for every malformed geometry input whose rings are
all non-empty (degenerate rings of one or two points, repeated points, holes
not nested in the exterior, etc.), the point-in-polygon predicates and region
lookup return some boolean or region result without raising. -/
theorem C9_no_crash_on_nonempty_rings (x y lat lng : ℚ) (ring : List (ℚ × ℚ))
    (mp : List (List (List (ℚ × ℚ)))) (m : GeoJSONRegionMapper)
    (hring : ring ≠ [])
    (hmp : ∀ g ∈ mp, ∀ r ∈ g, r ≠ [])
    (hm : ∀ p ∈ m.features_by_region, ∀ g ∈ p.2, geomWf g = true) :
    (∃ b, point_in_polygon (x, y) ring = .ok b) ∧
    (∃ b, point_in_multipolygon (x, y) mp = .ok b) ∧
    (∃ result, get_region_for_point m lat lng = .ok result) :=
  ⟨⟨pipB (x, y) ring, point_in_polygon_eq_ok (x, y) ring hring⟩,
   ⟨mpB (x, y) mp, point_in_multipolygon_eq_ok (x, y) mp hmp⟩,
   regionGo_ok (lng, lat) m.features_by_region hm⟩

theorem C9_witness :
    (∃ b, point_in_polygon (0, 0) [(0, 0), (0, 0)] = .ok b) ∧
    (∃ b, point_in_multipolygon (0, 0) [[[(0, 0)]]] = .ok b) ∧
    (∃ result,
      get_region_for_point ⟨[("R", [Geom.poly [[(0, 0), (0, 0)]]])]⟩ 0 0 = .ok result) :=
  C9_no_crash_on_nonempty_rings 0 0 0 0 [(0, 0), (0, 0)] [[[(0, 0)]]]
    ⟨[("R", [Geom.poly [[(0, 0), (0, 0)]]])]⟩ (by decide) (by decide) (by decide)

/-- Claim C10: if the input place name is the empty string or consists only
of whitespace, the lower-cased trimmed input is the empty string, which is a
substring of every gazetteer key, so resolution returns the coordinates of
the first entry of `BC_CITIES_COORDS` (vancouver: lat 49.2827, lng -123.1207)
for every outcome of the external service — the gazetteer tier already hits,
so no external geocoding call is consulted. -/
theorem C10_blank_input_hits_first_entry (s : String)
    (hws : ∀ c ∈ s.data, c.isWhitespace = true) :
    gazetteerLookup (pyStrip (pyLower s)) = some (49.2827, -123.1207) ∧
    ∀ ext, resolveCoords ext s = (49.2827, some (-123.1207)) := by
  have hkey : pyStrip (pyLower s) = "" := pyStrip_pyLower_blank s hws
  constructor
  · rw [hkey]
    rfl
  · intro ext
    unfold resolveCoords
    rw [hkey]
    rfl

theorem C10_witness :
    (∀ c ∈ ("  ").data, c.isWhitespace = true) ∧
    resolveCoords .exn "  " = (49.2827, some (-123.1207)) :=
  ⟨by decide, (C10_blank_input_hits_first_entry "  " (by decide)).2 .exn⟩

end ClimateTracker
